import Mathlib

/-!
Verification of the desktop window-manager core (`Desktop.js` / `Window.js`).

The embedding models the pointer-driven window-manager logic: pointer
unification (`getEventPosition`), handle classification (`isDragElement`,
`isFocusableElement`), the geometry engine of `handleMouseMove` together with
the write helpers `moveElement` / `resizeElement`, the focus-stack update
`handleFocusChange`, the drag-session lifecycle (`handleMouseDown`,
`handleMouseUp`), and the viewport gate of the `Desktop` component.

Modelling decisions, each taken from the source:
* Pixel coordinates are `Int` (JS numbers used only with `+`, `-`, `Math.min`,
  `Math.max` on integer inputs).
* `moveElement` / `resizeElement` guard each write with JS truthiness
  (`if (x) ...`): a value of `0` means "leave the field alone".
* `element.style.zIndex` yields the CSS value as a *string*; in
  `handleFocusChange` the comparison `currentIndex > cutoffIndex` therefore
  compares decimal strings by the JS string relational operator (code-unit
  lexicographic order), while the write `currentIndex - 1` coerces the string
  back to a number.  All values ever stored are numbers (canonical decimal
  representations), so the state keeps `zIndex : Nat` and the comparison is
  modelled by lexicographic order on `Nat.repr`.  A zIndex of `0` has
  representation `"0"`, which is never lexicographically greater than another
  canonical representation, so the `- 1` in the loop never underflows.
* Each handle element of `Window.js` carries exactly one handle class
  (`titleBar`, `topResizer`, ..., plus `body` for the window body), so a
  target element is modelled by a single tag plus its parent window's id.
* The constants `minWidth`, `minHeight`, `bodyMargin` are imported from the
  rendering layer (`Window.js` publishes them); they are kept as abstract
  `Int` parameters of every function that reads them.
* `event.touches[0]` on an empty touch list throws in JS; fallible position
  extraction is embedded as an `Option` result.
-/

/-- Tag carried by a DOM target element: one of the nine drag-handle classes
of `Window.js`, the window `body` class, or some unrelated element. -/
inductive ElemTag where
  | titleBar
  | topResizer
  | leftResizer
  | rightResizer
  | bottomResizer
  | topLeftResizer
  | topRightResizer
  | bottomLeftResizer
  | bottomRightResizer
  | body
  | other
deriving DecidableEq, Repr

/-- A target element: its single marker class and the id of the parent
window (`element.parentNode`). -/
structure Elem where
  tag : ElemTag
  windowId : Nat
deriving DecidableEq, Repr

/-- Source `isDragElement`: `null` check, then membership of the class list
in the nine handle classes. -/
def isDragElement : Option Elem → Bool
  | none => false
  | some el =>
    el.tag == ElemTag.titleBar ||
    el.tag == ElemTag.topResizer ||
    el.tag == ElemTag.leftResizer ||
    el.tag == ElemTag.rightResizer ||
    el.tag == ElemTag.bottomResizer ||
    el.tag == ElemTag.topLeftResizer ||
    el.tag == ElemTag.topRightResizer ||
    el.tag == ElemTag.bottomLeftResizer ||
    el.tag == ElemTag.bottomRightResizer

/-- Source `isFocusableElement`: a drag element or the window body. -/
def isFocusableElement : Option Elem → Bool
  | none => false
  | some el => isDragElement (some el) || el.tag == ElemTag.body

/-- A touch point with client coordinates. -/
structure Touch where
  clientX : Int
  clientY : Int
deriving DecidableEq, Repr

/-- A pointer event: its `type` string, touch list, mouse client coordinates
and target element (`none` models a null target). -/
structure Event where
  eventType : String
  touches : List Touch
  clientX : Int
  clientY : Int
  target : Option Elem
deriving DecidableEq, Repr

/-- JS code-unit lexicographic comparison of strings, on their character
lists: the semantics of `<` between two JS strings.  A strict prefix is
smaller; otherwise the first differing code unit decides. -/
def jsCharsLt : List Char → List Char → Bool
  | [], [] => false
  | [], _ :: _ => true
  | _ :: _, [] => false
  | a :: as, b :: bs =>
    if a < b then true
    else if b < a then false
    else jsCharsLt as bs

/-- JS `a < b` on strings. -/
def jsStrLt (a b : String) : Bool := jsCharsLt a.data b.data

/-- JS `String.prototype.startsWith`, as code-unit prefix comparison of the
character lists. -/
def jsStartsWith (s p : String) : Bool := p.data.isPrefixOf s.data

/-- Source `getEventPosition`: touch events read `touches[0]` (which throws
on an empty list, embedded as `none`); mouse events read `clientX/clientY`. -/
def getEventPosition (e : Event) : Option (Int × Int) :=
  if jsStartsWith e.eventType "touch" then
    match e.touches with
    | [] => none
    | t :: _ => some (t.clientX, t.clientY)
  else
    some (e.clientX, e.clientY)

/-- A window rectangle, field order as destructured in the source
(`{ top, left, width, height }`). -/
structure Rect where
  top : Int
  left : Int
  width : Int
  height : Int
deriving DecidableEq, Repr

/-- Source `moveElement`: writes `left` and `top` only when the passed value
is JS-truthy, i.e. nonzero. -/
def moveElement (r : Rect) (x y : Int) : Rect :=
  { r with
    left := if x = 0 then r.left else x
    top := if y = 0 then r.top else y }

/-- Source `resizeElement`: writes `width` and `height` only when the passed
value is JS-truthy, i.e. nonzero. -/
def resizeElement (r : Rect) (width height : Int) : Rect :=
  { r with
    width := if width = 0 then r.width else width
    height := if height = 0 then r.height else height }

/-- The drag session stored in `dragState.current`: the pressed element
(tag plus parent window id), the anchor pointer position, and the window's
bounding rectangle at drag start. -/
structure DragState where
  tag : ElemTag
  windowId : Nat
  x : Int
  y : Int
  top : Int
  left : Int
  width : Int
  height : Int
deriving DecidableEq, Repr

/-- Source local `xResizeDelta = state.width + x - state.x`. -/
def xResizeDelta (s : DragState) (x : Int) : Int := s.width + x - s.x

/-- Source local `yResizeDelta = state.height + y - state.y`. -/
def yResizeDelta (s : DragState) (y : Int) : Int := s.height + y - s.y

/-- Source local `xResizeOffset = state.width - x + state.x`. -/
def xResizeOffset (s : DragState) (x : Int) : Int := s.width - x + s.x

/-- Source local `yResizeOffset = state.height - y + state.y`. -/
def yResizeOffset (s : DragState) (y : Int) : Int := s.height - y + s.y

/-- Source local `xMoveDelta = state.left + x - state.x`. -/
def xMoveDelta (s : DragState) (x : Int) : Int := s.left + x - s.x

/-- Source local `yMoveDelta = state.top + y - state.y`. -/
def yMoveDelta (s : DragState) (y : Int) : Int := s.top + y - s.y

/-- Source local `xMoveLimit = state.left + state.width - minWidth`. -/
def xMoveLimit (mw : Int) (s : DragState) : Int := s.left + s.width - mw

/-- Source local `yMoveLimit = state.top + state.height - minHeight - bodyMargin - 1`. -/
def yMoveLimit (mh bm : Int) (s : DragState) : Int :=
  s.top + s.height - mh - bm - 1

/-- The handle-kind dispatch of `handleMouseMove` applied to the live
rectangle `r` of the target window: the chain of `classList.contains`
checks, each branch calling `moveElement` / `resizeElement` with the
arguments of the source (passing `0` where the source passes `0`).  The
classes are mutually exclusive on the session's stored element, so the
`else if` chain is a `match`; an element matching none of the nine handle
classes falls through with no write, mirroring the missing final `else`. -/
def mouseMoveRect (mw mh bm : Int) (s : DragState) (x y : Int) (r : Rect) : Rect :=
  match s.tag with
  | ElemTag.titleBar =>
    moveElement r (xMoveDelta s x) (yMoveDelta s y)
  | ElemTag.rightResizer =>
    resizeElement r (xResizeDelta s x) 0
  | ElemTag.bottomResizer =>
    resizeElement r 0 (yResizeDelta s y)
  | ElemTag.bottomRightResizer =>
    resizeElement r (xResizeDelta s x) (yResizeDelta s y)
  | ElemTag.topRightResizer =>
    resizeElement (moveElement r 0 (yMoveDelta s y)) (xResizeDelta s x) (yResizeOffset s y)
  | ElemTag.leftResizer =>
    resizeElement (moveElement r (min (xMoveDelta s x) (xMoveLimit mw s)) 0)
      (max (xResizeOffset s x) mw) 0
  | ElemTag.topResizer =>
    resizeElement (moveElement r 0 (min (yMoveDelta s y) (yMoveLimit mh bm s)))
      0 (max (yResizeOffset s y) mh)
  | ElemTag.bottomLeftResizer =>
    resizeElement (moveElement r (min (xMoveDelta s x) (xMoveLimit mw s)) 0)
      (max (xResizeOffset s x) mw) (yResizeDelta s y)
  | ElemTag.topLeftResizer =>
    resizeElement
      (moveElement r (min (xMoveDelta s x) (xMoveLimit mw s))
        (min (yMoveDelta s y) (yMoveLimit mh bm s)))
      (max (xResizeOffset s x) mw) (max (yResizeOffset s y) mh)
  | _ => r

/-- One mounted window: its id (rendering key), its stacking index as stored
in `style.zIndex`, and its rectangle. -/
structure Window where
  id : Nat
  zIndex : Nat
  rect : Rect
deriving DecidableEq, Repr

/-- Source comparison `currentIndex > cutoffIndex` in `handleFocusChange`:
both operands are the strings read from `style.zIndex` (canonical decimal
representations of the stored numbers), so JS performs string comparison. -/
def zIndexGt (current cutoff : Nat) : Bool :=
  jsStrLt (Nat.repr cutoff) (Nat.repr current)

/-- Source `handleFocusChange`: `cutoffIndex` is the target window's current
`style.zIndex`; every visible window whose index is string-greater than the
cutoff is decremented (`currentIndex - 1` coerces back to a number); finally
the target's index is set to `Math.max(visibleWindows.length - 1, 0)`.
`Nat` subtraction is exact here because `"0"` is never string-greater than a
canonical decimal representation.  A target id absent from the list models a
target element outside any window, which the source never passes here. -/
def handleFocusChange (ws : List Window) (targetId : Nat) : List Window :=
  match ws.find? (fun w => w.id == targetId) with
  | none => ws
  | some t =>
    let cutoff := t.zIndex
    let lowered := ws.map (fun w =>
      if zIndexGt w.zIndex cutoff then { w with zIndex := w.zIndex - 1 } else w)
    lowered.map (fun w =>
      if w.id == targetId then { w with zIndex := max (ws.length - 1) 0 } else w)

/-- The `Desktop` component's state: the mounted windows (the live
`getElementsByClassName("window")` collection) and the `dragState` ref. -/
structure DesktopState where
  windows : List Window
  drag : Option DragState
deriving DecidableEq, Repr

/-- Source `handleMouseDown`: promote the focus-change target when the
pressed element is focusable; when it is a drag element, record a fresh drag
session from this event's position and the pressed window's current bounding
rectangle.  `none` models a thrown exception (position extraction on an
empty touch list, or a drag element whose parent window is not mounted). -/
def handleMouseDown (st : DesktopState) (ev : Event) : Option DesktopState :=
  match ev.target with
  | none =>
    -- A null target is neither focusable nor a drag element: focus moves to
    -- the desktop surface and the drag state is untouched.
    some st
  | some el =>
    let ws1 :=
      if isFocusableElement (some el) then
        handleFocusChange st.windows el.windowId
      else st.windows
    if isDragElement (some el) then
      match getEventPosition ev with
      | none => none
      | some (x, y) =>
        match ws1.find? (fun w => w.id == el.windowId) with
        | none => none
        | some w =>
          some ⟨ws1, some ⟨el.tag, el.windowId, x, y,
            w.rect.top, w.rect.left, w.rect.width, w.rect.height⟩⟩
    else
      some ⟨ws1, st.drag⟩

/-- Source `handleMouseMove`: a missing drag session short-circuits to a
no-op before anything is read; otherwise the stored element's parent window
gets the rectangle computed by the handle-kind dispatch at this event's
position.  `none` models position extraction throwing. -/
def handleMouseMove (mw mh bm : Int) (st : DesktopState) (ev : Event) :
    Option DesktopState :=
  match st.drag with
  | none => some st
  | some s =>
    match getEventPosition ev with
    | none => none
    | some (x, y) =>
      some { st with
        windows := st.windows.map (fun w =>
          if w.id == s.windowId then
            { w with rect := mouseMoveRect mw mh bm s x y w.rect }
          else w) }

/-- Source `handleMouseUp`: clear the drag session when one is active. -/
def handleMouseUp (st : DesktopState) : DesktopState :=
  match st.drag with
  | some _ => { st with drag := none }
  | none => st

/-- Source constant `requiredViewportWidth = 800`. -/
def requiredViewportWidth : Int := 800

/-- Source constant `requiredViewportHeight = 600`. -/
def requiredViewportHeight : Int := 600

/-- What the `Desktop` component renders: the desktop surface with the
window-manager handlers attached, or the `BlueScreen` collaborator with an
error code and cause string. -/
inductive View where
  | desktop
  | blueScreen (errorCode : String) (cause : String)
deriving DecidableEq, Repr

/-- The cause string interpolated into the `BlueScreen` element. -/
def blueScreenCause (w h : Int) : String :=
  "The system requires a screen resolution of at least " ++
    toString requiredViewportWidth ++ "x" ++ toString requiredViewportHeight ++
    ". Current resolution is " ++ toString w ++ "x" ++ toString h ++ "."

/-- The return expression of `Desktop`: the desktop is rendered exactly when
`width >= requiredViewportWidth && height >= requiredViewportHeight`,
otherwise the `BlueScreen` with its error code and cause. -/
def desktopRender (w h : Int) : View :=
  if requiredViewportWidth ≤ w ∧ requiredViewportHeight ≤ h then
    View.desktop
  else
    View.blueScreen "0x1A (INVALID_SCREEN_SIZE)" (blueScreenCause w h)

/-- The eleven-window configuration used to witness the `style.zIndex`
string-comparison defect: window ids `0..10` with `zIndex i` for id `i`. -/
def elevenWindows : List Window :=
  (List.range 11).map (fun i => ⟨i, i, ⟨0, 0, 100, 100⟩⟩)

/-- C1: a pointer-move on handle kind `k` mutates the live rectangle exactly
as the §4.5 table lists — move writes `left = startRect.left + x - ax` and
`top = startRect.top + y - ay`; resizeE writes `width = startRect.width +
x - ax`; resizeS writes the height analogue; resizeSE both; resizeNE writes
`top`, `width` and the unclamped `height = dyResizeOffset`; the near-edge
kinds W, N, SW, NW write `min(dxMove, xMoveLimit)`, `min(dyMove,
yMoveLimit)`, `max(dxResizeOffset, minWidth)`, `max(dyResizeOffset,
minHeight)` for exactly their listed fields.  Every written field is
characterised independently, under only the condition that its own computed
value is nonzero (a computed value of exactly 0 is withheld by the write
layer, leaving the prior value — the behaviour of `moveElement` /
`resizeElement` stated by the separate frame theorem).  The final two
conjuncts are the §8 worked examples: the move delta (new left 120, new
top 90, size unchanged) and the west-resize clamp (width 50, left 50). -/
theorem c1_geometry_table (mw mh bm : Int) (s : DragState) (x y : Int) (r : Rect) :
    (s.tag = ElemTag.titleBar →
      (xMoveDelta s x ≠ 0 →
        (mouseMoveRect mw mh bm s x y r).left = xMoveDelta s x) ∧
      (yMoveDelta s y ≠ 0 →
        (mouseMoveRect mw mh bm s x y r).top = yMoveDelta s y)) ∧
    (s.tag = ElemTag.rightResizer →
      (xResizeDelta s x ≠ 0 →
        (mouseMoveRect mw mh bm s x y r).width = xResizeDelta s x)) ∧
    (s.tag = ElemTag.bottomResizer →
      (yResizeDelta s y ≠ 0 →
        (mouseMoveRect mw mh bm s x y r).height = yResizeDelta s y)) ∧
    (s.tag = ElemTag.bottomRightResizer →
      (xResizeDelta s x ≠ 0 →
        (mouseMoveRect mw mh bm s x y r).width = xResizeDelta s x) ∧
      (yResizeDelta s y ≠ 0 →
        (mouseMoveRect mw mh bm s x y r).height = yResizeDelta s y)) ∧
    (s.tag = ElemTag.topRightResizer →
      (yMoveDelta s y ≠ 0 →
        (mouseMoveRect mw mh bm s x y r).top = yMoveDelta s y) ∧
      (xResizeDelta s x ≠ 0 →
        (mouseMoveRect mw mh bm s x y r).width = xResizeDelta s x) ∧
      (yResizeOffset s y ≠ 0 →
        (mouseMoveRect mw mh bm s x y r).height = yResizeOffset s y)) ∧
    (s.tag = ElemTag.leftResizer →
      (min (xMoveDelta s x) (xMoveLimit mw s) ≠ 0 →
        (mouseMoveRect mw mh bm s x y r).left =
          min (xMoveDelta s x) (xMoveLimit mw s)) ∧
      (max (xResizeOffset s x) mw ≠ 0 →
        (mouseMoveRect mw mh bm s x y r).width =
          max (xResizeOffset s x) mw)) ∧
    (s.tag = ElemTag.topResizer →
      (min (yMoveDelta s y) (yMoveLimit mh bm s) ≠ 0 →
        (mouseMoveRect mw mh bm s x y r).top =
          min (yMoveDelta s y) (yMoveLimit mh bm s)) ∧
      (max (yResizeOffset s y) mh ≠ 0 →
        (mouseMoveRect mw mh bm s x y r).height =
          max (yResizeOffset s y) mh)) ∧
    (s.tag = ElemTag.bottomLeftResizer →
      (min (xMoveDelta s x) (xMoveLimit mw s) ≠ 0 →
        (mouseMoveRect mw mh bm s x y r).left =
          min (xMoveDelta s x) (xMoveLimit mw s)) ∧
      (max (xResizeOffset s x) mw ≠ 0 →
        (mouseMoveRect mw mh bm s x y r).width =
          max (xResizeOffset s x) mw) ∧
      (yResizeDelta s y ≠ 0 →
        (mouseMoveRect mw mh bm s x y r).height = yResizeDelta s y)) ∧
    (s.tag = ElemTag.topLeftResizer →
      (min (xMoveDelta s x) (xMoveLimit mw s) ≠ 0 →
        (mouseMoveRect mw mh bm s x y r).left =
          min (xMoveDelta s x) (xMoveLimit mw s)) ∧
      (min (yMoveDelta s y) (yMoveLimit mh bm s) ≠ 0 →
        (mouseMoveRect mw mh bm s x y r).top =
          min (yMoveDelta s y) (yMoveLimit mh bm s)) ∧
      (max (xResizeOffset s x) mw ≠ 0 →
        (mouseMoveRect mw mh bm s x y r).width =
          max (xResizeOffset s x) mw) ∧
      (max (yResizeOffset s y) mh ≠ 0 →
        (mouseMoveRect mw mh bm s x y r).height =
          max (yResizeOffset s y) mh)) ∧
    mouseMoveRect 50 50 10
        ⟨ElemTag.titleBar, 0, 50, 50, 100, 100, 200, 150⟩ 70 40
        ⟨100, 100, 200, 150⟩ = ⟨90, 120, 200, 150⟩ ∧
    mouseMoveRect 50 50 10
        ⟨ElemTag.leftResizer, 0, 0, 0, 0, 0, 100, 100⟩ 80 0
        ⟨0, 0, 100, 100⟩ = ⟨0, 50, 50, 100⟩ := by
  rcases s with ⟨tag, wid, sx, sy, stp, sl, sw, sh⟩
  refine ⟨?_, ?_, ?_, ?_, ?_, ?_, ?_, ?_, ?_, by decide, by decide⟩ <;>
    intro ht <;> subst ht
  · exact ⟨fun h => by simp [mouseMoveRect, moveElement, h],
      fun h => by simp [mouseMoveRect, moveElement, h]⟩
  · exact fun h => by simp [mouseMoveRect, resizeElement, h]
  · exact fun h => by simp [mouseMoveRect, resizeElement, h]
  · exact ⟨fun h => by simp [mouseMoveRect, resizeElement, h],
      fun h => by simp [mouseMoveRect, resizeElement, h]⟩
  · exact ⟨fun h => by simp [mouseMoveRect, moveElement, resizeElement, h],
      fun h => by simp [mouseMoveRect, moveElement, resizeElement, h],
      fun h => by simp [mouseMoveRect, moveElement, resizeElement, h]⟩
  · exact ⟨fun h => by simp [mouseMoveRect, moveElement, resizeElement, h],
      fun h => by simp [mouseMoveRect, moveElement, resizeElement, h]⟩
  · exact ⟨fun h => by simp [mouseMoveRect, moveElement, resizeElement, h],
      fun h => by simp [mouseMoveRect, moveElement, resizeElement, h]⟩
  · exact ⟨fun h => by simp [mouseMoveRect, moveElement, resizeElement, h],
      fun h => by simp [mouseMoveRect, moveElement, resizeElement, h],
      fun h => by simp [mouseMoveRect, moveElement, resizeElement, h]⟩
  · exact ⟨fun h => by simp [mouseMoveRect, moveElement, resizeElement, h],
      fun h => by simp [mouseMoveRect, moveElement, resizeElement, h],
      fun h => by simp [mouseMoveRect, moveElement, resizeElement, h],
      fun h => by simp [mouseMoveRect, moveElement, resizeElement, h]⟩

/-- Witness for C1: a mixed titleBar input with `dxMove = 0` and
`dyMove = 7` — the left write is withheld but the top write still lands —
plus the left and top writes at the §8 move-delta input. -/
theorem c1_geometry_table_witness :
    (mouseMoveRect 50 50 10 ⟨ElemTag.titleBar, 0, 10, 10, 4, 6, 200, 150⟩ 4 13
      ⟨4, 6, 200, 150⟩).top = 7 ∧
    (mouseMoveRect 50 50 10 ⟨ElemTag.titleBar, 0, 50, 50, 100, 100, 200, 150⟩
      70 40 ⟨100, 100, 200, 150⟩).left = 120 ∧
    (mouseMoveRect 50 50 10 ⟨ElemTag.titleBar, 0, 50, 50, 100, 100, 200, 150⟩
      70 40 ⟨100, 100, 200, 150⟩).top = 90 := by
  have hmixed := ((c1_geometry_table 50 50 10
      ⟨ElemTag.titleBar, 0, 10, 10, 4, 6, 200, 150⟩ 4 13
      ⟨4, 6, 200, 150⟩).1 rfl).2 (by decide)
  have hmove := (c1_geometry_table 50 50 10
      ⟨ElemTag.titleBar, 0, 50, 50, 100, 100, 200, 150⟩ 70 40
      ⟨100, 100, 200, 150⟩).1 rfl
  exact ⟨hmixed.trans (by decide), (hmove.1 (by decide)).trans (by decide),
    (hmove.2 (by decide)).trans (by decide)⟩

/-- C2: the permutation invariant is violated by the code at eleven windows.
Starting from zIndex values exactly `{0, …, 10}` and promoting the window at
zIndex 9, the resulting values are `[0, …, 8, 10, 10]`: the window at
zIndex 10 escapes the decrement because `style.zIndex` comparison is a JS
string comparison and `"10" > "9"` is false, so the result duplicates 10 and
has no 9 — not a permutation of `{0, …, 10}`. -/
theorem c2_zorder_permutation_violated :
    (elevenWindows.map (fun w => w.zIndex)) = [0, 1, 2, 3, 4, 5, 6, 7, 8, 9, 10] ∧
    ((handleFocusChange elevenWindows 9).map (fun w => w.zIndex)) =
      [0, 1, 2, 3, 4, 5, 6, 7, 8, 10, 10] ∧
    ¬ List.Perm ((handleFocusChange elevenWindows 9).map (fun w => w.zIndex))
        (List.range 11) := by decide

/-- C3: the promotion example from three windows holds (promote A(z=0) among
B(z=1), C(z=2) yields A(z=2), B(z=0), C(z=1)), but the general decrement
rule fails at eleven windows: promoting the window whose zIndex (cutoff)
is 9 leaves the window at zIndex 10 undecremented — the claim requires every
other window with `zIndex > cutoff` to drop by 1, yet id 10 keeps zIndex 10,
because the JS string comparison `"10" > "9"` is false. -/
theorem c3_promote_decrement_violated :
    ((handleFocusChange
        [⟨0, 0, ⟨0, 0, 100, 100⟩⟩, ⟨1, 1, ⟨0, 0, 100, 100⟩⟩,
         ⟨2, 2, ⟨0, 0, 100, 100⟩⟩] 0).map (fun w => w.zIndex)) = [2, 0, 1] ∧
    ((handleFocusChange elevenWindows 9).find? (fun w => w.id == 10)) =
      some ⟨10, 10, ⟨0, 0, 100, 100⟩⟩ ∧
    ((handleFocusChange elevenWindows 9).find? (fun w => w.id == 9)) =
      some ⟨9, 10, ⟨0, 0, 100, 100⟩⟩ := by decide

/-- C7: promoting the topmost window is not idempotent at eleven windows.
With zIndex values `{0, …, 10}`, promoting the window at zIndex 10 changes
the stack to `[0, 1, 1, 2, 3, 4, 5, 6, 7, 8, 10]`: every single-digit index
from 2 to 9 is string-greater than `"10"` and gets decremented.  At three
windows (single-digit indices) the idempotence does hold. -/
theorem c7_topmost_promotion_not_idempotent :
    ((handleFocusChange elevenWindows 10).map (fun w => w.zIndex)) =
      [0, 1, 1, 2, 3, 4, 5, 6, 7, 8, 10] ∧
    handleFocusChange elevenWindows 10 ≠ elevenWindows ∧
    handleFocusChange
        [⟨0, 0, ⟨0, 0, 100, 100⟩⟩, ⟨1, 1, ⟨0, 0, 100, 100⟩⟩,
         ⟨2, 2, ⟨0, 0, 100, 100⟩⟩] 2 =
      [⟨0, 0, ⟨0, 0, 100, 100⟩⟩, ⟨1, 1, ⟨0, 0, 100, 100⟩⟩,
       ⟨2, 2, ⟨0, 0, 100, 100⟩⟩] := by decide

/-- C5: a pointer-move delivered with no active drag session is a no-op: the
handler returns the state unchanged, so no window's rect and no window's
zIndex is altered. -/
theorem c5_move_without_session_noop (mw mh bm : Int) (st : DesktopState)
    (ev : Event) (h : st.drag = none) :
    handleMouseMove mw mh bm st ev = some st := by
  simp [handleMouseMove, h]

/-- Witness for C5: a concrete stray mouse-move against an idle desktop. -/
theorem c5_move_without_session_noop_witness :
    handleMouseMove 50 50 10 ⟨[⟨1, 0, ⟨0, 0, 100, 100⟩⟩], none⟩
        ⟨"mousemove", [], 30, 40, none⟩ =
      some ⟨[⟨1, 0, ⟨0, 0, 100, 100⟩⟩], none⟩ :=
  c5_move_without_session_noop 50 50 10 ⟨[⟨1, 0, ⟨0, 0, 100, 100⟩⟩], none⟩
    ⟨"mousemove", [], 30, 40, none⟩ rfl

/-- C6: on every handle kind, only the rectangle fields listed in the §4.5
table are ever written — every other field retains its prior value — and a
listed field whose computed value is exactly `0` is also left unchanged,
because `moveElement` / `resizeElement` test the value for JS truthiness
before writing.  Elements matching no handle class (window body or other)
leave the rectangle entirely unchanged. -/
theorem c6_frame_and_zero_skip (mw mh bm : Int) (s : DragState) (x y : Int)
    (r : Rect) :
    (s.tag = ElemTag.titleBar →
      (mouseMoveRect mw mh bm s x y r).width = r.width ∧
      (mouseMoveRect mw mh bm s x y r).height = r.height ∧
      (xMoveDelta s x = 0 → (mouseMoveRect mw mh bm s x y r).left = r.left) ∧
      (yMoveDelta s y = 0 → (mouseMoveRect mw mh bm s x y r).top = r.top)) ∧
    (s.tag = ElemTag.rightResizer →
      (mouseMoveRect mw mh bm s x y r).left = r.left ∧
      (mouseMoveRect mw mh bm s x y r).top = r.top ∧
      (mouseMoveRect mw mh bm s x y r).height = r.height ∧
      (xResizeDelta s x = 0 → (mouseMoveRect mw mh bm s x y r).width = r.width)) ∧
    (s.tag = ElemTag.bottomResizer →
      (mouseMoveRect mw mh bm s x y r).left = r.left ∧
      (mouseMoveRect mw mh bm s x y r).top = r.top ∧
      (mouseMoveRect mw mh bm s x y r).width = r.width ∧
      (yResizeDelta s y = 0 → (mouseMoveRect mw mh bm s x y r).height = r.height)) ∧
    (s.tag = ElemTag.bottomRightResizer →
      (mouseMoveRect mw mh bm s x y r).left = r.left ∧
      (mouseMoveRect mw mh bm s x y r).top = r.top ∧
      (xResizeDelta s x = 0 → (mouseMoveRect mw mh bm s x y r).width = r.width) ∧
      (yResizeDelta s y = 0 → (mouseMoveRect mw mh bm s x y r).height = r.height)) ∧
    (s.tag = ElemTag.topRightResizer →
      (mouseMoveRect mw mh bm s x y r).left = r.left ∧
      (yMoveDelta s y = 0 → (mouseMoveRect mw mh bm s x y r).top = r.top) ∧
      (xResizeDelta s x = 0 → (mouseMoveRect mw mh bm s x y r).width = r.width) ∧
      (yResizeOffset s y = 0 → (mouseMoveRect mw mh bm s x y r).height = r.height)) ∧
    (s.tag = ElemTag.leftResizer →
      (mouseMoveRect mw mh bm s x y r).top = r.top ∧
      (mouseMoveRect mw mh bm s x y r).height = r.height ∧
      (min (xMoveDelta s x) (xMoveLimit mw s) = 0 →
        (mouseMoveRect mw mh bm s x y r).left = r.left) ∧
      (max (xResizeOffset s x) mw = 0 →
        (mouseMoveRect mw mh bm s x y r).width = r.width)) ∧
    (s.tag = ElemTag.topResizer →
      (mouseMoveRect mw mh bm s x y r).left = r.left ∧
      (mouseMoveRect mw mh bm s x y r).width = r.width ∧
      (min (yMoveDelta s y) (yMoveLimit mh bm s) = 0 →
        (mouseMoveRect mw mh bm s x y r).top = r.top) ∧
      (max (yResizeOffset s y) mh = 0 →
        (mouseMoveRect mw mh bm s x y r).height = r.height)) ∧
    (s.tag = ElemTag.bottomLeftResizer →
      (mouseMoveRect mw mh bm s x y r).top = r.top ∧
      (min (xMoveDelta s x) (xMoveLimit mw s) = 0 →
        (mouseMoveRect mw mh bm s x y r).left = r.left) ∧
      (max (xResizeOffset s x) mw = 0 →
        (mouseMoveRect mw mh bm s x y r).width = r.width) ∧
      (yResizeDelta s y = 0 → (mouseMoveRect mw mh bm s x y r).height = r.height)) ∧
    (s.tag = ElemTag.topLeftResizer →
      (min (xMoveDelta s x) (xMoveLimit mw s) = 0 →
        (mouseMoveRect mw mh bm s x y r).left = r.left) ∧
      (min (yMoveDelta s y) (yMoveLimit mh bm s) = 0 →
        (mouseMoveRect mw mh bm s x y r).top = r.top) ∧
      (max (xResizeOffset s x) mw = 0 →
        (mouseMoveRect mw mh bm s x y r).width = r.width) ∧
      (max (yResizeOffset s y) mh = 0 →
        (mouseMoveRect mw mh bm s x y r).height = r.height)) ∧
    (s.tag = ElemTag.body → mouseMoveRect mw mh bm s x y r = r) ∧
    (s.tag = ElemTag.other → mouseMoveRect mw mh bm s x y r = r) := by
  rcases s with ⟨tag, wid, sx, sy, stp, sl, sw, sh⟩
  refine ⟨?_, ?_, ?_, ?_, ?_, ?_, ?_, ?_, ?_, ?_, ?_⟩ <;> intro ht <;> subst ht
  · exact ⟨rfl, rfl,
      fun h => by simp [mouseMoveRect, moveElement, h],
      fun h => by simp [mouseMoveRect, moveElement, h]⟩
  · exact ⟨rfl, rfl, rfl,
      fun h => by simp [mouseMoveRect, resizeElement, h]⟩
  · exact ⟨rfl, rfl, rfl,
      fun h => by simp [mouseMoveRect, resizeElement, h]⟩
  · exact ⟨rfl, rfl,
      fun h => by simp [mouseMoveRect, resizeElement, h],
      fun h => by simp [mouseMoveRect, resizeElement, h]⟩
  · exact ⟨rfl,
      fun h => by simp [mouseMoveRect, moveElement, resizeElement, h],
      fun h => by simp [mouseMoveRect, moveElement, resizeElement, h],
      fun h => by simp [mouseMoveRect, moveElement, resizeElement, h]⟩
  · exact ⟨rfl, rfl,
      fun h => by simp [mouseMoveRect, moveElement, resizeElement, h],
      fun h => by simp [mouseMoveRect, moveElement, resizeElement, h]⟩
  · exact ⟨rfl, rfl,
      fun h => by simp [mouseMoveRect, moveElement, resizeElement, h],
      fun h => by simp [mouseMoveRect, moveElement, resizeElement, h]⟩
  · exact ⟨rfl,
      fun h => by simp [mouseMoveRect, moveElement, resizeElement, h],
      fun h => by simp [mouseMoveRect, moveElement, resizeElement, h],
      fun h => by simp [mouseMoveRect, moveElement, resizeElement, h]⟩
  · exact ⟨fun h => by simp [mouseMoveRect, moveElement, resizeElement, h],
      fun h => by simp [mouseMoveRect, moveElement, resizeElement, h],
      fun h => by simp [mouseMoveRect, moveElement, resizeElement, h],
      fun h => by simp [mouseMoveRect, moveElement, resizeElement, h]⟩
  · rfl
  · rfl

/-- Witness for C6: a west-resize whose clamped left delta computes to `0`
leaves `left` unchanged at its prior mid-drag value instead of zeroing it.
The session anchors at `(0, 0)` with `startRect = (0, 0, 100, 100)` and
`minWidth = 50`; at pointer `(0, 0)` the value `min(dxMove, xMoveLimit) =
min(0, 50) = 0` is withheld, so the live rectangle's left stays `7`. -/
theorem c6_frame_and_zero_skip_witness :
    (mouseMoveRect 50 50 10 ⟨ElemTag.leftResizer, 0, 0, 0, 0, 0, 100, 100⟩ 0 0
      ⟨5, 7, 90, 100⟩).left = 7 := by
  have h := ((c6_frame_and_zero_skip 50 50 10
      ⟨ElemTag.leftResizer, 0, 0, 0, 0, 0, 100, 100⟩ 0 0
      ⟨5, 7, 90, 100⟩).2.2.2.2.2.1 rfl).2.2.1 (by decide)
  exact h.trans (by decide)

/-- Counterexample to C4: the claim that the §4.5 clamps keep every written
width/height valid fails on a far-edge resize.  An east resize with
`startRect` width 100, anchor x 200 and pointer x 50 computes
`dxResize = 100 + 50 - 200 = -50`; the value is nonzero, so it is written,
and the window's width becomes the invalid value `-50`. -/
theorem c4_unclamped_negative_write :
    (mouseMoveRect 50 50 10 ⟨ElemTag.rightResizer, 0, 200, 0, 0, 0, 100, 100⟩
        50 0 ⟨0, 0, 100, 100⟩).width = -50 ∧
    (mouseMoveRect 50 50 10 ⟨ElemTag.rightResizer, 0, 200, 0, 0, 0, 100, 100⟩
        50 0 ⟨0, 0, 100, 100⟩).width < 0 := by decide

/-- C4 amended: only the near-edge writes are clamped before writing.  For
the kinds resizeW, resizeSW and resizeNW the written width is
`max(dxResizeOffset, minWidth) ≥ minWidth`, and for resizeN and resizeNW the
written height is `max(dyResizeOffset, minHeight) ≥ minHeight` (when the
respective minimum is positive, the value is nonzero so it is actually
written); the far-edge width/height writes of resizeE, resizeS, resizeSE,
resizeNE and resizeSW's height are unclamped and can go negative. -/
theorem c4_near_edge_clamps (mw mh bm : Int) (s : DragState) (x y : Int)
    (r : Rect) :
    (0 < mw →
      s.tag = ElemTag.leftResizer ∨ s.tag = ElemTag.bottomLeftResizer ∨
        s.tag = ElemTag.topLeftResizer →
      mw ≤ (mouseMoveRect mw mh bm s x y r).width) ∧
    (0 < mh →
      s.tag = ElemTag.topResizer ∨ s.tag = ElemTag.topLeftResizer →
      mh ≤ (mouseMoveRect mw mh bm s x y r).height) := by
  rcases s with ⟨tag, wid, sx, sy, stp, sl, sw, sh⟩
  constructor
  · intro hmw htag
    have hne : max (xResizeOffset ⟨tag, wid, sx, sy, stp, sl, sw, sh⟩ x) mw ≠ 0 :=
      (lt_of_lt_of_le hmw (le_max_right _ _)).ne'
    rcases htag with ht | ht | ht <;> cases ht <;>
      simp only [mouseMoveRect, moveElement, resizeElement, if_neg hne] <;>
      exact le_max_right _ _
  · intro hmh htag
    have hne : max (yResizeOffset ⟨tag, wid, sx, sy, stp, sl, sw, sh⟩ y) mh ≠ 0 :=
      (lt_of_lt_of_le hmh (le_max_right _ _)).ne'
    rcases htag with ht | ht <;> cases ht <;>
      simp only [mouseMoveRect, moveElement, resizeElement, if_neg hne] <;>
      exact le_max_right _ _

/-- Witness for C4's amended theorem: the §8 west-resize clamp input, where
the written width is `max(20, 50) = 50 ≥ minWidth = 50`. -/
theorem c4_near_edge_clamps_witness :
    50 ≤ (mouseMoveRect 50 50 10 ⟨ElemTag.leftResizer, 0, 0, 0, 0, 0, 100, 100⟩
        80 0 ⟨0, 0, 100, 100⟩).width :=
  (c4_near_edge_clamps 50 50 10 ⟨ElemTag.leftResizer, 0, 0, 0, 0, 0, 100, 100⟩
      80 0 ⟨0, 0, 100, 100⟩).1 (by decide) (Or.inl rfl)

/-- A dangling drag session on the titleBar of window 1 (its pointer-up was
never delivered). -/
def staleSession : DragState := ⟨ElemTag.titleBar, 1, 10, 10, 0, 0, 100, 100⟩

/-- Two mounted windows with the dangling `staleSession` still active. -/
def staleState : DesktopState :=
  ⟨[⟨1, 0, ⟨0, 0, 100, 100⟩⟩, ⟨2, 1, ⟨0, 0, 120, 120⟩⟩], some staleSession⟩

/-- A subsequent pointer-down on the body of window 2 — focusable, but not a
drag handle. -/
def bodyDownEvent : Event := ⟨"mousedown", [], 30, 40, some ⟨ElemTag.body, 2⟩⟩

/-- A pointer-move delivered after `bodyDownEvent`. -/
def afterDownMove : Event := ⟨"mousemove", [], 35, 45, none⟩

/-- Counterexample to C8: a pointer-down does not overwrite a dangling drag
session on every target.  After `bodyDownEvent` — a pointer-down on window
2's body, which is not a drag handle — the stale session for window 1
survives, and the next pointer-move is still governed by it: window 1's
rectangle moves to left 25, top 35 (computed from the stale anchor), even
though the last pointer-down was on window 2. -/
theorem c8_stale_session_survives_down :
    (handleMouseDown staleState bodyDownEvent).map (fun st => st.drag) =
      some (some staleSession) ∧
    ((handleMouseDown staleState bodyDownEvent).bind
        (fun st => handleMouseMove 50 50 10 st afterDownMove)) =
      some ⟨[⟨1, 0, ⟨35, 25, 100, 100⟩⟩, ⟨2, 1, ⟨0, 0, 120, 120⟩⟩],
        some staleSession⟩ := by decide

/-- C8 amended: a pointer-down overwrites a dangling session only when its
target is a drag handle; then the new session is built entirely from that
event (the handle's tag and window, this event's position, and the pressed
window's current rectangle after the focus change).  A pointer-down on a
non-handle target leaves the dangling session in place. -/
theorem c8_session_overwrite (st st' : DesktopState) (ty : String)
    (ts : List Touch) (cx cy : Int) (tgt : Option Elem)
    (h : handleMouseDown st ⟨ty, ts, cx, cy, tgt⟩ = some st') :
    (isDragElement tgt = false → st'.drag = st.drag) ∧
    (isDragElement tgt = true →
      ∃ el x y w, tgt = some el ∧
        getEventPosition ⟨ty, ts, cx, cy, tgt⟩ = some (x, y) ∧
        ((handleFocusChange st.windows el.windowId).find?
          (fun v => v.id == el.windowId)) = some w ∧
        st'.drag = some ⟨el.tag, el.windowId, x, y,
          w.rect.top, w.rect.left, w.rect.width, w.rect.height⟩) := by
  rcases tgt with _ | el
  · refine ⟨fun _ => ?_, fun hyes => absurd hyes (by simp [isDragElement])⟩
    cases h
    rfl
  · constructor
    · intro hnot
      simp only [handleMouseDown, hnot, Bool.false_eq_true, if_false] at h
      cases h
      rfl
    · intro hyes
      have hfoc : isFocusableElement (some el) = true := by
        simp only [isFocusableElement, hyes, Bool.true_or]
      simp only [handleMouseDown, hyes, hfoc, if_true] at h
      rcases hpos : getEventPosition ⟨ty, ts, cx, cy, some el⟩ with _ | ⟨x, y⟩ <;>
        rw [hpos] at h
      · cases h
      · rcases hfind : ((handleFocusChange st.windows el.windowId).find?
            (fun v => v.id == el.windowId)) with _ | w <;> rw [hfind] at h
        · cases h
        · cases h
          exact ⟨el, x, y, w, rfl, rfl, hfind, rfl⟩

/-- Witness for C8's amended theorem: a pointer-down on the titleBar of
window 1 installs a session anchored at that event's position with the
window's current rectangle as its start rectangle. -/
theorem c8_session_overwrite_witness :
    (handleMouseDown ⟨[⟨1, 0, ⟨0, 0, 100, 100⟩⟩], none⟩
        ⟨"mousedown", [], 5, 6, some ⟨ElemTag.titleBar, 1⟩⟩).map
      (fun st => st.drag) =
      some (some ⟨ElemTag.titleBar, 1, 5, 6, 0, 0, 100, 100⟩) := by
  have h0 : handleMouseDown ⟨[⟨1, 0, ⟨0, 0, 100, 100⟩⟩], none⟩
      ⟨"mousedown", [], 5, 6, some ⟨ElemTag.titleBar, 1⟩⟩ =
      some ⟨[⟨1, 0, ⟨0, 0, 100, 100⟩⟩],
        some ⟨ElemTag.titleBar, 1, 5, 6, 0, 0, 100, 100⟩⟩ := by decide
  obtain ⟨el, x, y, w, hev, hpos, hfind, hdrag⟩ :=
    (c8_session_overwrite ⟨[⟨1, 0, ⟨0, 0, 100, 100⟩⟩], none⟩
      ⟨[⟨1, 0, ⟨0, 0, 100, 100⟩⟩], some ⟨ElemTag.titleBar, 1, 5, 6, 0, 0, 100, 100⟩⟩
      "mousedown" [] 5 6 (some ⟨ElemTag.titleBar, 1⟩) h0).2 (by decide)
  have hel : (⟨ElemTag.titleBar, 1⟩ : Elem) = el := Option.some.inj hev
  subst hel
  have hxy : ((5 : Int), (6 : Int)) = (x, y) := Option.some.inj hpos
  injection hxy with hx hy
  subst hx
  subst hy
  have hw : (⟨1, 0, ⟨0, 0, 100, 100⟩⟩ : Window) = w := Option.some.inj hfind
  subst hw
  rw [h0]
  exact congrArg some hdrag

/-- C9: the window-manager core (the desktop surface carrying all pointer
handlers) is rendered if and only if the viewport is at least
`requiredViewportWidth × requiredViewportHeight`; a smaller viewport renders
the `BlueScreen` collaborator instead, with the error code
`0x1A (INVALID_SCREEN_SIZE)` and the human-readable cause string, and no
window-manager state enters the picture (`desktopRender` consumes only the
viewport dimensions). -/
theorem c9_viewport_gate (w h : Int) :
    (desktopRender w h = View.desktop ↔
      requiredViewportWidth ≤ w ∧ requiredViewportHeight ≤ h) ∧
    (¬ (requiredViewportWidth ≤ w ∧ requiredViewportHeight ≤ h) →
      desktopRender w h =
        View.blueScreen "0x1A (INVALID_SCREEN_SIZE)" (blueScreenCause w h)) := by
  unfold desktopRender
  by_cases hc : requiredViewportWidth ≤ w ∧ requiredViewportHeight ≤ h
  · simp [hc]
  · simp [hc]

/-- Witness for C9: a 1024×768 viewport engages the core; a 640×480 viewport
falls back to the blue screen with its error code and cause. -/
theorem c9_viewport_gate_witness :
    desktopRender 1024 768 = View.desktop ∧
    desktopRender 640 480 =
      View.blueScreen "0x1A (INVALID_SCREEN_SIZE)" (blueScreenCause 640 480) :=
  ⟨(c9_viewport_gate 1024 768).1.2 (by decide),
   (c9_viewport_gate 640 480).2 (by decide)⟩

/-- C10: pointer unification for a touch-type event reads the first touch
point with no guard on the list's length: for an event whose type starts
with `touch`, extraction yields the first touch's client coordinates when at
least one touch point is present, and fails (the thrown access, embedded as
`none`) when the touch list is empty — it does not degrade to a no-op
position. -/
theorem c10_touch_first_point (e : Event)
    (ht : jsStartsWith e.eventType "touch" = true) :
    (e.touches = [] → getEventPosition e = none) ∧
    (∀ t ts, e.touches = t :: ts →
      getEventPosition e = some (t.clientX, t.clientY)) := by
  constructor
  · intro hempty
    simp [getEventPosition, ht, hempty]
  · intro t ts hcons
    simp [getEventPosition, ht, hcons]

/-- Witness for C10: a `touchend` whose touch list is empty fails extraction;
a `touchmove` with one touch point reads it. -/
theorem c10_touch_first_point_witness :
    getEventPosition ⟨"touchend", [], 3, 4, none⟩ = none ∧
    getEventPosition ⟨"touchmove", [⟨11, 22⟩], 3, 4, none⟩ = some (11, 22) :=
  ⟨(c10_touch_first_point ⟨"touchend", [], 3, 4, none⟩ (by decide)).1 rfl,
   (c10_touch_first_point ⟨"touchmove", [⟨11, 22⟩], 3, 4, none⟩ (by decide)).2
     ⟨11, 22⟩ [] rfl⟩
